import Mathlib

/-!
Verification of the bootstrap connection supervisor of
`src/backend/src/config/db.ts`.

The only in-scope logic of the repository is `connectDB`, a retrying
database-connection bootstrap:

```ts
const MAX_RETRIES = 5;
const RETRY_DELAY = 5000; // 5 seconds

export const connectDB = async (retries = MAX_RETRIES): Promise<void> => {
  try {
    await mongoose.connect(envConfig.mongo.uri, { dbName: ... });
    console.log("Connected to MongoDB");
  } catch (error) {
    console.error("MongoDB connection error:", error);
    if (retries > 0) {
      console.log(`Retrying connection... (${MAX_RETRIES - retries + 1}/${MAX_RETRIES})`);
      await new Promise(resolve => setTimeout(resolve, RETRY_DELAY));
      return connectDB(retries - 1);
    }
    console.error("Failed to connect to MongoDB after maximum retries");
    process.exit(1);
  }
};
```

We embed this shallowly.  The external collaborator `mongoose.connect` is
abstracted as an environment `conn : Nat → Bool` giving the outcome of the
attempt with global index `idx` (counted from 0): `true` means the connect
call resolves, `false` means it rejects.  A run of the supervisor is summed
up by a `RunResult`: the number of connect attempts made, the list of delay
suspensions performed (each entry a duration in milliseconds), the ordered
log output, and the final outcome (`success`, i.e. the promise resolves, or
`fatal code`, i.e. `process.exit(code)` terminates the process).  The
`retries` argument is a TypeScript number that the code compares with
`> 0` and decrements, so it is embedded as an `Int` to cover out-of-contract
(negative, or larger than `MAX_RETRIES`) arguments as well.
-/

/-- `MAX_RETRIES` from db.ts line 4.  An `Int` because the code mixes it into
arithmetic with the (possibly negative) `retries` argument in the retry log. -/
def MAX_RETRIES : Int := 5

/-- `RETRY_DELAY` from db.ts line 5, in milliseconds. -/
def RETRY_DELAY : Nat := 5000

/-- One log line emitted by `connectDB`.  Each constructor is one of the four
`console.log` / `console.error` calls in db.ts:
* `connected` — `"Connected to MongoDB"` (line 12);
* `connError` — `"MongoDB connection error:", error` (line 14);
* `retrying a t` — `` `Retrying connection... (${a}/${t})` `` (line 17),
  where `a` and `t` are the two interpolated numbers;
* `failedMax` — `"Failed to connect to MongoDB after maximum retries"`
  (line 22). -/
inductive LogEntry where
  | connected : LogEntry
  | connError : LogEntry
  | retrying (attempt total : Int) : LogEntry
  | failedMax : LogEntry
deriving DecidableEq, Repr

/-- How a `connectDB` invocation ends: the returned promise resolves
(`success`), or the process is terminated by `process.exit code`
(`fatal code`).  There is no constructor for a rejected promise because the
`try`/`catch` in db.ts never lets one escape — see `C5_transient_only_logged`. -/
inductive Outcome where
  | success : Outcome
  | fatal (code : Nat) : Outcome
deriving DecidableEq, Repr

/-- Everything observable about one run of `connectDB`: how many connect
attempts were made, the delay suspensions performed (in order, durations in
ms), the log lines (in order), and the final outcome. -/
structure RunResult where
  attempts : Nat
  delays : List Nat
  log : List LogEntry
  outcome : Outcome
deriving DecidableEq, Repr

/-- Shallow embedding of `connectDB` (db.ts lines 7–25).  `conn i` is the
outcome of the attempt with global index `i`; `retries` is the function's
argument; `idx` is the index of the next attempt (0 at the top-level call).

* connect succeeds: log `"Connected to MongoDB"`, resolve — one attempt,
  no delay, no further recursion;
* connect fails and `retries > 0`: log the error and the retry line
  `(MAX_RETRIES - retries + 1 / MAX_RETRIES)`, await the `RETRY_DELAY`
  timeout, and return `connectDB (retries - 1)` — the recursive run is
  this run's continuation;
* connect fails and `retries ≤ 0`: log the error and the terminal message,
  `process.exit 1`.

The recursion of the source is on `retries`, strictly decreasing while
positive; it is well-founded by the measure `retries.toNat`. -/
def connectDB (conn : Nat → Bool) (retries : Int) (idx : Nat) : RunResult :=
  if conn idx then
    { attempts := 1, delays := [], log := [.connected], outcome := .success }
  else if 0 < retries then
    let rest := connectDB conn (retries - 1) (idx + 1)
    { attempts := rest.attempts + 1,
      delays := RETRY_DELAY :: rest.delays,
      log := .connError :: .retrying (MAX_RETRIES - retries + 1) MAX_RETRIES :: rest.log,
      outcome := rest.outcome }
  else
    { attempts := 1, delays := [], log := [.connError, .failedMax], outcome := .fatal 1 }
termination_by retries.toNat
decreasing_by omega

/-- The top-level call of db.ts's startup path, where the `retries` parameter
takes its default value `MAX_RETRIES`. -/
def connectDBDefault (conn : Nat → Bool) : RunResult :=
  connectDB conn MAX_RETRIES 0

/-! ### Unfolding lemmas: one per branch of the source's `try`/`catch` -/

/-- The connect call at the current index succeeds (try-branch, lines 9–12):
log success and resolve, regardless of the `retries` argument. -/
lemma connectDB_of_success (conn : Nat → Bool) (retries : Int) (idx : Nat)
    (h : conn idx = true) :
    connectDB conn retries idx =
      { attempts := 1, delays := [], log := [.connected], outcome := .success } := by
  rw [connectDB]
  simp [h]

/-- The connect call fails while `retries > 0` (lines 16–19): the run is the
recursive run at `retries - 1`, prefixed by this attempt's error line, retry
line and delay suspension. -/
lemma connectDB_of_fail_pos (conn : Nat → Bool) (retries : Int) (idx : Nat)
    (h : conn idx = false) (hr : 0 < retries) :
    connectDB conn retries idx =
      { attempts := (connectDB conn (retries - 1) (idx + 1)).attempts + 1,
        delays := RETRY_DELAY :: (connectDB conn (retries - 1) (idx + 1)).delays,
        log := .connError :: .retrying (MAX_RETRIES - retries + 1) MAX_RETRIES ::
          (connectDB conn (retries - 1) (idx + 1)).log,
        outcome := (connectDB conn (retries - 1) (idx + 1)).outcome } := by
  rw [connectDB]
  simp [h, hr]

/-- The connect call fails with `retries ≤ 0` (lines 22–23): log the terminal
message and `process.exit 1`. -/
lemma connectDB_of_fail_nonpos (conn : Nat → Bool) (retries : Int) (idx : Nat)
    (h : conn idx = false) (hr : retries ≤ 0) :
    connectDB conn retries idx =
      { attempts := 1, delays := [], log := [.connError, .failedMax],
        outcome := .fatal 1 } := by
  rw [connectDB]
  simp [h, Int.not_lt.mpr hr]

/-! ### Structural helper lemmas -/

/-- Every run ends in a resolved promise or in `process.exit 1`. -/
lemma connectDB_outcome_cases (conn : Nat → Bool) (retries : Int) (idx : Nat) :
    (connectDB conn retries idx).outcome = .success ∨
    (connectDB conn retries idx).outcome = .fatal 1 := by
  generalize hn : retries.toNat = n
  induction n generalizing retries idx with
  | zero =>
    cases hc : conn idx with
    | true => rw [connectDB_of_success conn retries idx hc]; left; rfl
    | false =>
      rw [connectDB_of_fail_nonpos conn retries idx hc (by omega)]; right; rfl
  | succ n ih =>
    cases hc : conn idx with
    | true => rw [connectDB_of_success conn retries idx hc]; left; rfl
    | false =>
      rw [connectDB_of_fail_pos conn retries idx hc (by omega)]
      exact ih (retries - 1) (idx + 1) (by omega)

/-- Every run makes at least one connect attempt. -/
lemma connectDB_attempts_pos (conn : Nat → Bool) (retries : Int) (idx : Nat) :
    1 ≤ (connectDB conn retries idx).attempts := by
  rw [connectDB]
  split
  · simp
  · split
    · simp
    · simp

/-- The delay suspensions of a run: one `RETRY_DELAY` per attempt after the
first, and nothing else. -/
lemma connectDB_delays_eq (conn : Nat → Bool) (retries : Int) (idx : Nat) :
    (connectDB conn retries idx).delays =
      List.replicate ((connectDB conn retries idx).attempts - 1) RETRY_DELAY := by
  generalize hn : retries.toNat = n
  induction n generalizing retries idx with
  | zero =>
    cases hc : conn idx with
    | true => rw [connectDB_of_success conn retries idx hc]; simp
    | false => rw [connectDB_of_fail_nonpos conn retries idx hc (by omega)]; simp
  | succ n ih =>
    cases hc : conn idx with
    | true => rw [connectDB_of_success conn retries idx hc]; simp
    | false =>
      rw [connectDB_of_fail_pos conn retries idx hc (by omega)]
      have h1 := connectDB_attempts_pos conn (retries - 1) (idx + 1)
      have h2 := ih (retries - 1) (idx + 1) (by omega)
      obtain ⟨m, hm⟩ : ∃ m, (connectDB conn (retries - 1) (idx + 1)).attempts = m + 1 :=
        ⟨(connectDB conn (retries - 1) (idx + 1)).attempts - 1, by omega⟩
      simp only [hm] at h2 ⊢
      rw [h2]
      simp [List.replicate_succ]

/-- If a list has a known last element, consing in front keeps it. -/
lemma getLast?_cons_of_getLast? {α : Type} (x : α) {l : List α} {a : α}
    (h : l.getLast? = some a) : (x :: l).getLast? = some a := by
  cases l with
  | nil => simp at h
  | cons y ys => rw [List.getLast?_cons_cons]; exact h

/-- Success at the attempt with offset `j` (0-indexed), all earlier attempts
failing, with at least `j` retries available: the run makes `j + 1` attempts,
resolves, and its last log line is the success indicator. -/
lemma connectDB_success_aux (j : Nat) : ∀ (N : Nat) (conn : Nat → Bool) (idx : Nat),
    j ≤ N →
    (∀ i, i < j → conn (idx + i) = false) →
    conn (idx + j) = true →
    (connectDB conn (N : Int) idx).attempts = j + 1 ∧
    (connectDB conn (N : Int) idx).outcome = .success ∧
    (connectDB conn (N : Int) idx).log.getLast? = some .connected := by
  induction j with
  | zero =>
    intro N conn idx _ _ hsucc
    rw [connectDB_of_success conn N idx (by simpa using hsucc)]
    exact ⟨rfl, rfl, rfl⟩
  | succ j ih =>
    intro N conn idx hjN hprev hsucc
    obtain ⟨M, rfl⟩ : ∃ M, N = M + 1 := ⟨N - 1, by omega⟩
    have hc0 : conn idx = false := by simpa using hprev 0 (by omega)
    have hr : (0 : Int) < ((M + 1 : Nat) : Int) := by exact_mod_cast Nat.succ_pos M
    rw [connectDB_of_fail_pos conn _ idx hc0 hr]
    have hcast : ((M + 1 : Nat) : Int) - 1 = (M : Nat) := by push_cast; ring
    rw [hcast]
    obtain ⟨h1, h2, h3⟩ := ih M conn (idx + 1) (by omega)
      (fun i hi => by
        rw [show idx + 1 + i = idx + (i + 1) by omega]
        exact hprev (i + 1) (by omega))
      (by rw [show idx + 1 + j = idx + (j + 1) by omega]; exact hsucc)
    refine ⟨by simp [h1], h2, ?_⟩
    exact getLast?_cons_of_getLast? _ (getLast?_cons_of_getLast? _ h3)

/-! ### Claim theorems -/

/-- C1: for every `maxRetries = N ≥ 0`, if every connection attempt fails,
`connectDB` invoked with `retries = N` makes exactly `N + 1` connection
attempts (the initial attempt plus `N` retries) before the Fatal signal
(`process.exit 1`) is raised. -/
theorem C1_all_fail_attempt_count (N : Nat) (conn : Nat → Bool) (idx : Nat)
    (hfail : ∀ i, conn i = false) :
    (connectDB conn (N : Int) idx).attempts = N + 1 ∧
    (connectDB conn (N : Int) idx).outcome = .fatal 1 := by
  induction N generalizing idx with
  | zero =>
    rw [connectDB_of_fail_nonpos conn _ idx (hfail idx) (by simp)]
    exact ⟨rfl, rfl⟩
  | succ n ih =>
    have hr : (0 : Int) < ((n + 1 : Nat) : Int) := by exact_mod_cast Nat.succ_pos n
    rw [connectDB_of_fail_pos conn _ idx (hfail idx) hr]
    have hcast : ((n + 1 : Nat) : Int) - 1 = ((n : Nat) : Int) := by push_cast; ring
    rw [hcast]
    obtain ⟨h1, h2⟩ := ih (idx + 1)
    exact ⟨by simp [h1], h2⟩

/-- Witness for C1 at `N = 2`, all attempts failing. -/
theorem C1_witness :
    (connectDB (fun _ => false) ((2 : Nat) : Int) 0).attempts = 3 ∧
    (connectDB (fun _ => false) ((2 : Nat) : Int) 0).outcome = .fatal 1 :=
  C1_all_fail_attempt_count 2 (fun _ => false) 0 (fun _ => rfl)

/-- C2: `connectDB` terminates for every `retries` value and every sequence of
connector outcomes — it is a total function of the config and the outcomes
(the recursion is well-founded by the measure `retries.toNat`, since `retries`
strictly decreases on every retry), and its result is either a resolved
promise with the connection established or `process.exit` with the non-zero
status 1: there is no third outcome. -/
theorem C2_terminates_no_third_outcome (conn : Nat → Bool) (retries : Int) (idx : Nat) :
    (connectDB conn retries idx).outcome = .success ∨
    (connectDB conn retries idx).outcome = .fatal 1 :=
  connectDB_outcome_cases conn retries idx

/-- C3: for every `N ≥ 0` and every `k` with `1 ≤ k ≤ N + 1`, if the `k`-th
attempt succeeds and all prior attempts failed, `connectDB` makes exactly `k`
attempts, resolves with success (no Fatal signal), and its final log line is
the success indicator — nothing is attempted or logged after the success. -/
theorem C3_success_at_k (N k : Nat) (conn : Nat → Bool) (idx : Nat)
    (hk1 : 1 ≤ k) (hkN : k ≤ N + 1)
    (hprev : ∀ i, i < k - 1 → conn (idx + i) = false)
    (hsucc : conn (idx + (k - 1)) = true) :
    (connectDB conn (N : Int) idx).attempts = k ∧
    (connectDB conn (N : Int) idx).outcome = .success ∧
    (connectDB conn (N : Int) idx).log.getLast? = some .connected := by
  obtain ⟨j, rfl⟩ : ∃ j, k = j + 1 := ⟨k - 1, by omega⟩
  exact connectDB_success_aux j N conn idx (by omega)
    (by simpa using hprev) (by simpa using hsucc)

/-- Witness for C3: `N = 5`, success on the third attempt. -/
theorem C3_witness :
    (connectDB (fun i => decide (2 ≤ i)) ((5 : Nat) : Int) 0).attempts = 3 ∧
    (connectDB (fun i => decide (2 ≤ i)) ((5 : Nat) : Int) 0).outcome = .success ∧
    (connectDB (fun i => decide (2 ≤ i)) ((5 : Nat) : Int) 0).log.getLast? =
      some .connected :=
  C3_success_at_k 5 3 (fun i => decide (2 ≤ i)) 0 (by decide) (by decide)
    (by decide) (by decide)

/-- C4: a connection failure with the remaining-attempts counter at zero logs
the distinct terminal failure message after the error line and terminates the
process with the non-zero exit status 1; control does not return to the
caller, and no further retry and no delay happen: the run consists of that
single attempt and an empty delay list. -/
theorem C4_exhausted_is_fatal (conn : Nat → Bool) (idx : Nat)
    (hfail : conn idx = false) :
    connectDB conn 0 idx =
      { attempts := 1, delays := [], log := [.connError, .failedMax],
        outcome := .fatal 1 } :=
  connectDB_of_fail_nonpos conn 0 idx hfail le_rfl

/-- Witness for C4 at an always-failing connector. -/
theorem C4_witness :
    connectDB (fun _ => false) 0 0 =
      { attempts := 1, delays := [], log := [.connError, .failedMax],
        outcome := .fatal 1 } :=
  C4_exhausted_is_fatal (fun _ => false) 0 rfl

/-- C5: a connection failure with `retries > 0` is handled locally by
retrying: it is surfaced only as log output (the error line and the retry
line) prefixed to the continuation's log, the run's outcome is exactly the
continuation's outcome, and the promise returned by `connectDB` never
rejects — every run resolves or exits, for any sequence of connector
outcomes. -/
theorem C5_transient_only_logged (conn : Nat → Bool) (retries : Int) (idx : Nat)
    (hfail : conn idx = false) (hpos : 0 < retries) :
    (connectDB conn retries idx).log =
      .connError :: .retrying (MAX_RETRIES - retries + 1) MAX_RETRIES ::
        (connectDB conn (retries - 1) (idx + 1)).log ∧
    (connectDB conn retries idx).outcome =
      (connectDB conn (retries - 1) (idx + 1)).outcome ∧
    ((connectDB conn retries idx).outcome = .success ∨
      (connectDB conn retries idx).outcome = .fatal 1) := by
  rw [connectDB_of_fail_pos conn retries idx hfail hpos]
  exact ⟨rfl, rfl, connectDB_outcome_cases conn (retries - 1) (idx + 1)⟩

/-- Witness for C5 at `retries = 1`, first attempt failing. -/
theorem C5_witness :
    (connectDB (fun _ => false) 1 0).log =
      .connError :: .retrying (MAX_RETRIES - 1 + 1) MAX_RETRIES ::
        (connectDB (fun _ => false) 0 1).log ∧
    (connectDB (fun _ => false) 1 0).outcome =
      (connectDB (fun _ => false) 0 1).outcome ∧
    ((connectDB (fun _ => false) 1 0).outcome = .success ∨
      (connectDB (fun _ => false) 1 0).outcome = .fatal 1) :=
  C5_transient_only_logged (fun _ => false) 1 0 rfl (by decide)

/-- C6: the delay suspensions of any run are exactly one `RETRY_DELAY`
(5000 ms) per attempt after the first — constant, with no growth or jitter:
a run with total attempt count `A` performs exactly `A - 1` delays, so a
successful attempt adds no delay, a success at attempt `k` has `k - 1`
delays, and a failing run with `maxRetries = 0` (one attempt) has none. -/
theorem C6_constant_delay (conn : Nat → Bool) (retries : Int) (idx : Nat) :
    (connectDB conn retries idx).delays =
      List.replicate ((connectDB conn retries idx).attempts - 1) RETRY_DELAY :=
  connectDB_delays_eq conn retries idx

/-- C7: each failed-but-retriable attempt logs a 1-indexed retry line numbered
`(MAX_RETRIES - retries + 1)` out of `MAX_RETRIES` right after the error line;
in the spec scenario (`maxRetries = 5`, failures on attempts 1–2, success on
attempt 3) the run logs exactly the failure lines numbered `(1/5)` and
`(2/5)`, in that order, waits 5000 ms twice, then logs success and resolves
after 3 total attempts. -/
theorem C7_retry_log_one_indexed :
    (∀ (conn : Nat → Bool) (retries : Int) (idx : Nat),
      conn idx = false → 0 < retries →
      (connectDB conn retries idx).log[1]? =
        some (.retrying (MAX_RETRIES - retries + 1) MAX_RETRIES)) ∧
    connectDB (fun i => decide (2 ≤ i)) 5 0 =
      { attempts := 3, delays := [RETRY_DELAY, RETRY_DELAY],
        log := [.connError, .retrying 1 5, .connError, .retrying 2 5, .connected],
        outcome := .success } := by
  constructor
  · intro conn retries idx hfail hpos
    rw [connectDB_of_fail_pos conn retries idx hfail hpos]
    simp
  · simp +decide [connectDB]

/-- Witness for C7: the generic part applied at an always-failing connector
with `retries = 5`, plus the concrete scenario. -/
theorem C7_witness :
    (connectDB (fun _ => false) 5 0).log[1]? = some (.retrying 1 5) ∧
    connectDB (fun i => decide (2 ≤ i)) 5 0 =
      { attempts := 3, delays := [RETRY_DELAY, RETRY_DELAY],
        log := [.connError, .retrying 1 5, .connError, .retrying 2 5, .connected],
        outcome := .success } :=
  ⟨C7_retry_log_one_indexed.1 (fun _ => false) 5 0 rfl (by decide),
    C7_retry_log_one_indexed.2⟩

/-- C8: `connectDB` is deterministic in its configuration and the connector's
outcomes: two runs with the same `retries` value and pointwise-equal
per-attempt connector results coincide in every observable — attempt count,
delay durations, log output, and final outcome. -/
theorem C8_deterministic (conn1 conn2 : Nat → Bool) (r1 r2 : Int) (idx : Nat)
    (hconn : ∀ i, conn1 i = conn2 i) (hr : r1 = r2) :
    connectDB conn1 r1 idx = connectDB conn2 r2 idx := by
  have hfun : conn1 = conn2 := funext hconn
  rw [hfun, hr]

/-- Witness for C8 at two definitionally different but pointwise-equal
connectors. -/
theorem C8_witness :
    connectDB (fun _ => true) 5 0 = connectDB (fun _ => !false) 5 0 :=
  C8_deterministic (fun _ => true) (fun _ => !false) 5 5 0 (fun _ => rfl) rfl

/-- C9: the total in every retry log line is the module constant
`MAX_RETRIES = 5` regardless of the `retries` argument: any failing call with
`retries = r > 0` logs attempt number `5 - r + 1` out of `5`, so `r = 2` logs
`(4/5)` on its first failure and `r = 7` logs `(-1/5)`. -/
theorem C9_log_total_is_module_constant :
    (∀ (conn : Nat → Bool) (r : Int) (idx : Nat),
      conn idx = false → 0 < r →
      (connectDB conn r idx).log[1]? = some (.retrying (5 - r + 1) 5)) ∧
    (connectDB (fun _ => false) 2 0).log[1]? = some (.retrying 4 5) ∧
    (connectDB (fun _ => false) 7 0).log[1]? = some (.retrying (-1) 5) := by
  refine ⟨fun conn r idx hfail hpos => ?_, ?_, ?_⟩
  · rw [connectDB_of_fail_pos conn r idx hfail hpos]
    simp [MAX_RETRIES]
  · simp +decide [connectDB]
  · simp +decide [connectDB]

/-- Witness for C9: the generic part applied at `r = 3` (so the line reads
`(3/5)`), plus the out-of-contract `r = 7` case from the theorem. -/
theorem C9_witness :
    (connectDB (fun _ => false) 3 0).log[1]? = some (.retrying 3 5) ∧
    (connectDB (fun _ => false) 7 0).log[1]? = some (.retrying (-1) 5) :=
  ⟨C9_log_total_is_module_constant.1 (fun _ => false) 3 0 rfl (by decide),
    C9_log_total_is_module_constant.2.2⟩

/-- C10: a negative `retries` value behaves exactly like `retries = 0`,
because the retry branch is guarded by `retries > 0`: the run is identical to
the zero-retries run, and if the single attempt fails the process exits with
status 1 immediately — one attempt, no retry, no delay, terminal message
logged. -/
theorem C10_negative_retries_like_zero (r : Int) (conn : Nat → Bool) (idx : Nat)
    (hneg : r < 0) :
    connectDB conn r idx = connectDB conn 0 idx ∧
    (conn idx = false →
      connectDB conn r idx =
        { attempts := 1, delays := [], log := [.connError, .failedMax],
          outcome := .fatal 1 }) := by
  constructor
  · cases hc : conn idx with
    | true =>
      rw [connectDB_of_success conn r idx hc, connectDB_of_success conn 0 idx hc]
    | false =>
      rw [connectDB_of_fail_nonpos conn r idx hc (by omega),
        connectDB_of_fail_nonpos conn 0 idx hc (by omega)]
  · intro hc
    exact connectDB_of_fail_nonpos conn r idx hc (by omega)

/-- Witness for C10 at `r = -1` with a failing connector. -/
theorem C10_witness :
    connectDB (fun _ => false) (-1) 0 = connectDB (fun _ => false) 0 0 ∧
    ((fun _ => false : Nat → Bool) 0 = false →
      connectDB (fun _ => false) (-1) 0 =
        { attempts := 1, delays := [], log := [.connError, .failedMax],
          outcome := .fatal 1 }) :=
  C10_negative_retries_like_zero (-1) (fun _ => false) 0 (by decide)
